import Mathlib

/-!
Verification of the FlexFi on-chain program (flexfi-web3).

Shallow embedding of the Rust sources: machine integers (u64, u32, u16, u8)
are modelled as `Nat` with explicit saturation / overflow bounds at
`2 ^ 64 - 1` etc.; `i64` / `i16` values (timestamps, score deltas) are
modelled as `Int`; Solana pubkeys are abstract `Nat` identifiers; fallible
paths return an explicit error value.  Cross-program invocations (SPL token
transfers) are modelled by boolean success oracles, and account writes are
tracked at the serialization points of the source functions.
-/

namespace Flexfi

/-- Maximum value of a `u64`, that is `2 ^ 64 - 1`. -/
def U64_MAX : Nat := 18446744073709551615

/-- Maximum value of a `u32`, that is `2 ^ 32 - 1`. -/
def U32_MAX : Nat := 4294967295

/-- Maximum value of a `u16`, that is `2 ^ 16 - 1`. -/
def U16_MAX : Nat := 65535

/-- Rust `u64::checked_mul`: `none` on overflow. -/
def checkedMul (a b : Nat) : Option Nat :=
  if a * b ≤ U64_MAX then some (a * b) else none

/-- Rust `u64::checked_add`: `none` on overflow. -/
def checkedAdd (a b : Nat) : Option Nat :=
  if a + b ≤ U64_MAX then some (a + b) else none

/-- Rust `u64::checked_div`: `none` exactly when the divisor is zero. -/
def checkedDiv (a b : Nat) : Option Nat :=
  if b = 0 then none else some (a / b)

/-- Rust `u64::checked_sub`: `none` when the subtrahend is larger. -/
def checkedSub (a b : Nat) : Option Nat :=
  if b ≤ a then some (a - b) else none

/-- Rust `u64::saturating_add`: clamps at `u64::MAX`. -/
def satAddU64 (a b : Nat) : Nat := min (a + b) U64_MAX

/-- Rust `u32::saturating_add`: clamps at `u32::MAX`. -/
def satAddU32 (a b : Nat) : Nat := min (a + b) U32_MAX

/-- Rust `u16::saturating_add`: clamps at `u16::MAX`. -/
def satAddU16 (a b : Nat) : Nat := min (a + b) U16_MAX

/-- Rust saturating subtraction coincides with truncated `Nat` subtraction. -/
def satSub (a b : Nat) : Nat := a - b

/-- Program errors surfaced to the caller (src/error.rs and
`ProgramError` variants used by the modelled instruction handlers). -/
inductive ProgErr where
  | Unauthorized
  | MathOverflow
  | InsufficientCollateral
  | InsufficientCollateralForAutoDebit
  | InsufficientStaking
  | StakingFrozen
  | NoYieldToClaim
  | InvalidAccountData
  | InvalidArgument
  | InsufficientFunds
  | NotEnoughAccountKeys
  | TokenTransferFailed
  deriving DecidableEq, Repr

/-- Account metadata an instruction handler can inspect on a passed
`AccountInfo`: its signer flag.  Account slices are modelled as lists of
these, and `next_account_info` as positional consumption: a slice shorter
than the number of consumed accounts fails with `NotEnoughAccountKeys`. -/
structure AccountMeta where
  is_signer : Bool
  deriving DecidableEq, Repr

/-! ## Constants (src/constants.rs) -/

def CARD_STANDARD : Nat := 0
def CARD_SILVER : Nat := 1
def CARD_GOLD : Nat := 2
def CARD_PLATINUM : Nat := 3

def NFT_NONE : Nat := 0
def NFT_BRONZE : Nat := 1
def NFT_SILVER : Nat := 2
def NFT_GOLD : Nat := 3

def GRACE_PERIOD_DAYS : Nat := 15

def MIN_STAKING_AMOUNT : Nat := 10000000
def MIN_STAKING_LOCK_DAYS : Nat := 7
def MAX_STAKING_LOCK_DAYS : Nat := 365

/-- `get_late_payment_penalty` (src/constants.rs): late-payment penalty in
basis points for a (card tier, NFT tier) pair; unmatched pairs give 10%. -/
def get_late_payment_penalty (card_type nft_type : Nat) : Nat :=
  match card_type, nft_type with
  | 1, 1 => 700
  | 1, 2 => 600
  | 2, 1 => 500
  | 2, 2 => 400
  | 3, 1 => 200
  | 3, 3 => 100
  | _, _ => 1000

/-! ## BNPL contract state (src/state/bnpl.rs) -/

inductive BNPLStatus where
  | Active
  | Completed
  | Defaulted
  | Cancelled
  deriving DecidableEq, Repr

def BNPLStatus.to_u8 : BNPLStatus → Nat
  | .Active => 0
  | .Completed => 1
  | .Defaulted => 2
  | .Cancelled => 3

def BNPLStatus.from_u8 : Nat → Option BNPLStatus
  | 0 => some .Active
  | 1 => some .Completed
  | 2 => some .Defaulted
  | 3 => some .Cancelled
  | _ => none

/-- `BNPLContractAccount`: pubkeys are abstract `Nat` identifiers, `u8`/`u16`/
`u64` fields are `Nat`, `i64` timestamps are `Int`. -/
structure BNPLContractAccount where
  borrower : Nat
  merchant : Nat
  amount : Nat
  token_mint : Nat
  installments : Nat
  paid_installments : Nat
  next_payment_due : Int
  payment_interval_days : Nat
  amount_per_installment : Nat
  status : Nat
  created_at : Int
  last_payment_at : Int
  fee_percentage : Nat
  apr_percentage : Nat
  card_type : Nat
  nft_type : Nat
  bump : Nat
  deriving DecidableEq, Repr

def BNPLContractAccount.get_status (c : BNPLContractAccount) : Option BNPLStatus :=
  BNPLStatus.from_u8 c.status

def BNPLContractAccount.set_status (c : BNPLContractAccount) (s : BNPLStatus) :
    BNPLContractAccount :=
  { c with status := s.to_u8 }

/-- `is_payment_due`: `current_time >= self.next_payment_due`. -/
def BNPLContractAccount.is_payment_due (c : BNPLContractAccount) (current_time : Int) : Bool :=
  c.next_payment_due ≤ current_time

/-- `update_after_payment`: increments `paid_installments` (a `u8`, hence the
wrap at 256 of release-mode `+= 1`), records the payment time, and either
completes the contract or schedules the next due date. -/
def BNPLContractAccount.update_after_payment (c : BNPLContractAccount) (current_time : Int) :
    BNPLContractAccount :=
  let c1 := { c with paid_installments := (c.paid_installments + 1) % 256,
                     last_payment_at := current_time }
  if c1.installments ≤ c1.paid_installments then
    c1.set_status .Completed
  else
    { c1 with next_payment_due := current_time + (c1.payment_interval_days : Int) * 86400 }

/-! ## Staking state (src/state/staking.rs) -/

inductive StakingStatus where
  | Active
  | Locked
  | Frozen
  | Closed
  deriving DecidableEq, Repr

def StakingStatus.to_u8 : StakingStatus → Nat
  | .Active => 0
  | .Locked => 1
  | .Frozen => 2
  | .Closed => 3

def StakingStatus.from_u8 : Nat → Option StakingStatus
  | 0 => some .Active
  | 1 => some .Locked
  | 2 => some .Frozen
  | 3 => some .Closed
  | _ => none

structure StakingAccount where
  owner : Nat
  usdc_mint : Nat
  amount_staked : Nat
  status : Nat
  lock_period_end : Int
  created_at : Int
  last_update : Int
  bump : Nat
  deriving DecidableEq, Repr

def StakingAccount.get_status (s : StakingAccount) : Option StakingStatus :=
  StakingStatus.from_u8 s.status

def StakingAccount.set_status (s : StakingAccount) (st : StakingStatus) : StakingAccount :=
  { s with status := st.to_u8 }

def StakingAccount.new (owner usdc_mint : Nat) (amount_staked : Nat) (status : StakingStatus)
    (lock_period_end created_at : Int) (bump : Nat) : StakingAccount :=
  { owner := owner, usdc_mint := usdc_mint, amount_staked := amount_staked,
    status := status.to_u8, lock_period_end := lock_period_end,
    created_at := created_at, last_update := created_at, bump := bump }

/-! ## Score state (src/state/score.rs) -/

structure ScoreAccount where
  owner : Nat
  score : Nat
  on_time_payments : Nat
  late_payments : Nat
  defaults : Nat
  total_loans : Nat
  last_updated : Int
  bump : Nat
  deriving DecidableEq, Repr

/-- `ScoreAccount::update_score`: `change` is an `i16`; a positive change is
capped at 1000 (after the `u16` saturating add), a change strictly below −30
counts as a default, any other negative change as a late payment.  The cast
`change.abs() as u16` agrees with `Int.natAbs` on the whole `i16` range
(including `i16::MIN` under release-mode wrapping). -/
def ScoreAccount.update_score (s : ScoreAccount) (change : Int) (current_time : Int) :
    ScoreAccount :=
  if 0 < change then
    let new_score := satAddU16 s.score change.toNat
    { s with score := min new_score 1000,
             on_time_payments := satAddU32 s.on_time_payments 1,
             last_updated := current_time }
  else if change < -30 then
    { s with score := satSub s.score change.natAbs,
             defaults := satAddU16 s.defaults 1,
             last_updated := current_time }
  else if change < 0 then
    { s with score := satSub s.score change.natAbs,
             late_payments := satAddU32 s.late_payments 1,
             last_updated := current_time }
  else
    { s with last_updated := current_time }

/-! ## Authorization state (src/state/authorization.rs) -/

structure AuthorizationAccount where
  user : Nat
  flexfi_authority : Nat
  authorized_amount : Nat
  used_amount : Nat
  is_active : Bool
  created_at : Int
  expires_at : Int
  bump : Nat
  deriving DecidableEq, Repr

/-- `remaining_credit`: saturating subtraction. -/
def AuthorizationAccount.remaining_credit (a : AuthorizationAccount) : Nat :=
  satSub a.authorized_amount a.used_amount

/-- `is_valid`: active and not expired. -/
def AuthorizationAccount.is_valid (a : AuthorizationAccount) (current_time : Int) : Bool :=
  a.is_active && decide (current_time < a.expires_at)

/-! ## Yield state (src/state/yield_.rs) -/

structure YieldAccount where
  owner : Nat
  strategy : Nat
  custom_strategy_address : Nat
  auto_reinvest : Bool
  total_yield_earned : Nat
  total_yield_claimed : Nat
  last_yield_claimed : Int
  created_at : Int
  bump : Nat
  deriving DecidableEq, Repr

def YieldAccount.get_unclaimed_yield (y : YieldAccount) : Nat :=
  satSub y.total_yield_earned y.total_yield_claimed

def YieldAccount.record_yield_earned (y : YieldAccount) (amount : Nat) : YieldAccount :=
  { y with total_yield_earned := satAddU64 y.total_yield_earned amount }

def YieldAccount.record_yield_claimed (y : YieldAccount) (amount : Nat) (current_time : Int) :
    Except ProgErr YieldAccount :=
  if y.get_unclaimed_yield < amount then
    .error .InsufficientFunds
  else
    .ok { y with total_yield_claimed := satAddU64 y.total_yield_claimed amount,
                 last_yield_claimed := current_time }

/-! ## Score instruction (src/score/contract.rs) -/

/-- `process_update_score`: consumes three accounts from the passed slice
via `next_account_info` — the score account, the authority, and the clock
sysvar; a shorter slice fails with `NotEnoughAccountKeys` at the first
missing position.  It then requires the authority's signature and applies
`ScoreAccount::update_score`, serializing the score account. -/
def process_update_score (accounts : List AccountMeta) (score : ScoreAccount)
    (change : Int) (now : Int) : Except ProgErr ScoreAccount :=
  match accounts with
  | _score_account :: authority_account :: _clock_sysvar :: _ =>
    if ¬ authority_account.is_signer then .error .Unauthorized
    else .ok (score.update_score change now)
  | _ => .error .NotEnoughAccountKeys

/-! ## Repayment checker (src/bnpl/repayment.rs)

`process_check_repayment` over the three mutable accounts it serializes
(BNPL contract, staking, score).  `debit_ok` is the outcome oracle of the
direct SPL debit from the borrower's token account.  Every nested
`ScoreContract::update_score` call forwards exactly the two-element slice
`[score_account, borrower_account]` that the source builds;
`score_signer` and `borrower_signer` are the signer flags of those two
accounts.  The returned states are the account contents as committed by the
function's `serialize` calls (an error after a serialize keeps the
committed write, and an error before one discards the local mutation,
exactly as in the source). -/

structure RepayOutcome where
  bnpl : BNPLContractAccount
  staking : StakingAccount
  score : ScoreAccount
  err : Option ProgErr
  deriving DecidableEq, Repr

def process_check_repayment (bnpl : BNPLContractAccount) (staking : StakingAccount)
    (score : ScoreAccount) (wallet_card_type : Nat) (borrower_key : Nat)
    (score_signer borrower_signer : Bool) (now : Int) (debit_ok : Bool) : RepayOutcome :=
  let score_accounts : List AccountMeta :=
    [{ is_signer := score_signer }, { is_signer := borrower_signer }]
  match bnpl.get_status with
  | none => ⟨bnpl, staking, score, some .InvalidAccountData⟩
  | some status =>
    if status ≠ BNPLStatus.Active then ⟨bnpl, staking, score, none⟩
    else if ¬ bnpl.is_payment_due now then ⟨bnpl, staking, score, none⟩
    else if debit_ok then
      let bnpl1 := bnpl.update_after_payment now
      match process_update_score score_accounts score 5 now with
      | .error e => ⟨bnpl, staking, score, some e⟩
      | .ok score1 =>
        if bnpl1.get_status = some BNPLStatus.Completed then
          match process_update_score score_accounts score1 20 now with
          | .error e => ⟨bnpl1, staking, score1, some e⟩
          | .ok score2 => ⟨bnpl1, staking, score2, none⟩
        else ⟨bnpl1, staking, score1, none⟩
    else
      let grace_period : Int := (GRACE_PERIOD_DAYS : Int) * 86400
      if bnpl.next_payment_due + grace_period < now then
        if staking.owner ≠ borrower_key then ⟨bnpl, staking, score, some .Unauthorized⟩
        else
          let penalty_percentage := get_late_payment_penalty wallet_card_type bnpl.nft_type
          match checkedMul bnpl.amount_per_installment penalty_percentage with
          | none => ⟨bnpl, staking, score, some .MathOverflow⟩
          | some m =>
            match checkedDiv m 10000 with
            | none => ⟨bnpl, staking, score, some .MathOverflow⟩
            | some penalty_amount =>
              match checkedAdd bnpl.amount_per_installment penalty_amount with
              | none => ⟨bnpl, staking, score, some .MathOverflow⟩
              | some total_deduction =>
                if staking.amount_staked < total_deduction then
                  let available_amount := staking.amount_staked
                  if available_amount = 0 then
                    match process_update_score score_accounts score (-50) now with
                    | .error e => ⟨bnpl, staking, score, some e⟩
                    | .ok score1 =>
                      let bnpl1 := bnpl.set_status .Defaulted
                      ⟨bnpl1, staking, score1, some .InsufficientCollateralForAutoDebit⟩
                  else
                    let staking1 := { staking with amount_staked := 0 }
                    if bnpl.amount_per_installment ≤ available_amount then
                      let bnpl1 := bnpl.update_after_payment now
                      match process_update_score score_accounts score (-20) now with
                      | .error e => ⟨bnpl, staking, score, some e⟩
                      | .ok score1 => ⟨bnpl1, staking1, score1, none⟩
                    else
                      let bnpl1 := bnpl.set_status .Defaulted
                      match process_update_score score_accounts score (-50) now with
                      | .error e => ⟨bnpl, staking, score, some e⟩
                      | .ok score1 => ⟨bnpl1, staking1, score1, none⟩
                else
                  match checkedSub staking.amount_staked total_deduction with
                  | none => ⟨bnpl, staking, score, some .MathOverflow⟩
                  | some rest =>
                    let staking1 := { staking with amount_staked := rest }
                    let bnpl1 := bnpl.update_after_payment now
                    match process_update_score score_accounts score (-20) now with
                    | .error e => ⟨bnpl, staking, score, some e⟩
                    | .ok score1 => ⟨bnpl1, staking1, score1, none⟩
      else
        match process_update_score score_accounts score (-10) now with
        | .error e => ⟨bnpl, staking, score, some e⟩
        | .ok score1 => ⟨bnpl, staking, score1, none⟩

/-! ## BNPL contract creation amounts (src/bnpl/contract.rs) -/

/-- `fee_amount` of `process_create_bnpl_contract`:
`amount.checked_mul(fee).checked_div(10000)`. -/
def bnpl_fee_amount (amount fee_percentage : Nat) : Option Nat := do
  let m ← checkedMul amount fee_percentage
  checkedDiv m 10000

/-- `apr_amount` of `process_create_bnpl_contract`:
`amount.checked_mul(apr).checked_div(10000).checked_mul(installments).checked_div(12)`. -/
def bnpl_apr_amount (amount apr_percentage installments : Nat) : Option Nat := do
  let m1 ← checkedMul amount apr_percentage
  let d1 ← checkedDiv m1 10000
  let m2 ← checkedMul d1 installments
  checkedDiv m2 12

/-- `total_amount` of `process_create_bnpl_contract`:
`amount.checked_add(fee_amount).checked_add(apr_amount)`. -/
def bnpl_total_amount (amount fee_amount apr_amount : Nat) : Option Nat := do
  let s1 ← checkedAdd amount fee_amount
  checkedAdd s1 apr_amount

/-- `amount_per_installment` of `process_create_bnpl_contract`:
`total_amount.checked_div(installments)`. -/
def bnpl_amount_per_installment (total_amount installments : Nat) : Option Nat :=
  checkedDiv total_amount installments

/-- The whole amount-computation block of `process_create_bnpl_contract`
(lines 159-197), producing (fee, apr component, total, per-installment). -/
def bnpl_create_amounts (amount fee_percentage apr_percentage installments : Nat) :
    Option (Nat × Nat × Nat × Nat) := do
  let fee ← bnpl_fee_amount amount fee_percentage
  let apr ← bnpl_apr_amount amount apr_percentage installments
  let total ← bnpl_total_amount amount fee apr
  let per ← bnpl_amount_per_installment total installments
  pure (fee, apr, total, per)

/-! ## Staking instructions (src/core/staking.rs) -/

/-- Outcome of `process_deposit_staking`: the committed staking account (if
any was serialized / created) and the instruction result. -/
structure DepositOutcome where
  staking : Option StakingAccount
  err : Option ProgErr
  deriving DecidableEq, Repr

/-- `process_deposit_staking`.  `existing` is the staking account when one is
already owned by the program (`none` triggers the creation path).  The
account is serialized before the user-to-vault token transfer, so a failing
transfer (`transfer_ok = false`) still commits the updated balance. -/
def process_deposit_staking (existing : Option StakingAccount)
    (user_key usdc_mint staking_bump : Nat) (user_signed whitelisted : Bool)
    (amount : Nat) (lock_days : Nat) (now : Int) (transfer_ok : Bool) : DepositOutcome :=
  if ¬ user_signed then ⟨existing, some .Unauthorized⟩
  else if ¬ whitelisted then ⟨existing, some .Unauthorized⟩
  else if amount < MIN_STAKING_AMOUNT then ⟨existing, some .InsufficientStaking⟩
  else if lock_days < MIN_STAKING_LOCK_DAYS ∨ MAX_STAKING_LOCK_DAYS < lock_days then
    ⟨existing, some .InvalidArgument⟩
  else
    match existing with
    | some data0 =>
      match data0.get_status with
      | none => ⟨existing, some .InvalidAccountData⟩
      | some st =>
        if st ≠ StakingStatus.Active ∧ st ≠ StakingStatus.Locked then
          ⟨existing, some .StakingFrozen⟩
        else
          let data1 := { data0 with amount_staked := satAddU64 data0.amount_staked amount }
          let data2 :=
            if st = StakingStatus.Locked then
              let new_lock_end := now + (lock_days : Int) * 86400
              if data1.lock_period_end < new_lock_end then
                { data1 with lock_period_end := new_lock_end }
              else data1
            else
              { data1 with status := StakingStatus.Locked.to_u8,
                           lock_period_end := now + (lock_days : Int) * 86400 }
          let data3 := { data2 with last_update := now }
          if transfer_ok then ⟨some data3, none⟩ else ⟨some data3, some .TokenTransferFailed⟩
    | none =>
      let data := StakingAccount.new user_key usdc_mint amount StakingStatus.Locked
        (now + (lock_days : Int) * 86400) now staking_bump
      if transfer_ok then ⟨some data, none⟩ else ⟨some data, some .TokenTransferFailed⟩

/-- Outcome of `process_withdraw_staking`: committed staking account, amount
moved out of the vault (if the transfer ran), and the instruction result. -/
structure WithdrawOutcome where
  staking : StakingAccount
  transferred : Option Nat
  err : Option ProgErr
  deriving DecidableEq, Repr

/-- `process_withdraw_staking`.  The account is serialized before the
vault-to-user transfer. -/
def process_withdraw_staking (staking : StakingAccount) (user_key : Nat)
    (user_signed whitelisted : Bool) (amount : Nat) (now : Int) (transfer_ok : Bool) :
    WithdrawOutcome :=
  if ¬ user_signed then ⟨staking, none, some .Unauthorized⟩
  else if ¬ whitelisted then ⟨staking, none, some .Unauthorized⟩
  else if staking.owner ≠ user_key then ⟨staking, none, some .Unauthorized⟩
  else
    match staking.get_status with
    | none => ⟨staking, none, some .InvalidAccountData⟩
    | some status =>
      if status = StakingStatus.Frozen ∨ status = StakingStatus.Closed then
        ⟨staking, none, some .StakingFrozen⟩
      else if status = StakingStatus.Locked ∧ now < staking.lock_period_end then
        ⟨staking, none, some .StakingFrozen⟩
      else if staking.amount_staked < amount then
        ⟨staking, none, some .InsufficientStaking⟩
      else
        let s1 := { staking with amount_staked := satSub staking.amount_staked amount,
                                 last_update := now }
        let s2 :=
          if s1.amount_staked < MIN_STAKING_AMOUNT then s1.set_status StakingStatus.Closed
          else s1.set_status StakingStatus.Active
        if transfer_ok then ⟨s2, some amount, none⟩
        else ⟨s2, none, some .TokenTransferFailed⟩

/-! ## FlexFi spend (src/freeze_spend/authorization.rs) -/

/-- Outcome of `process_flexfi_spend`: committed authorization and staking
accounts, the amount moved from the staking custody vault to the merchant
(if the transfer ran), and the instruction result. -/
structure SpendOutcome where
  authorization : AuthorizationAccount
  staking : StakingAccount
  transferred : Option Nat
  err : Option ProgErr
  deriving DecidableEq, Repr

/-- `process_flexfi_spend`.  `authority_key_ok` is the check of the passed
FlexFi authority account against the program PDA; the staking account is
only read (for the vault bump) and never serialized. -/
def process_flexfi_spend (authorization : AuthorizationAccount) (staking : StakingAccount)
    (authority_key_ok : Bool) (now : Int) (amount : Nat) (transfer_ok : Bool) : SpendOutcome :=
  if ¬ authority_key_ok then ⟨authorization, staking, none, some .Unauthorized⟩
  else if ¬ authorization.is_valid now then ⟨authorization, staking, none, some .Unauthorized⟩
  else if authorization.remaining_credit < amount then
    ⟨authorization, staking, none, some .InsufficientCollateral⟩
  else if ¬ transfer_ok then ⟨authorization, staking, none, some .TokenTransferFailed⟩
  else
    let auth1 := { authorization with used_amount := satAddU64 authorization.used_amount amount }
    ⟨auth1, staking, some amount, none⟩

/-! ## Yield claim (src/yield_module/tracker.rs) -/

/-- Outcome of `process_claim_yield`: committed yield account, the amount
transferred out to the user (if any), and the instruction result. -/
structure ClaimOutcome where
  yield_data : YieldAccount
  transferred : Option Nat
  err : Option ProgErr
  deriving DecidableEq, Repr

/-- `process_claim_yield`.  When `auto_reinvest` is set and the amount is
below the 1,000,000-unit threshold the claim is re-recorded as earned and no
token transfer happens; otherwise the yield vault pays the user. -/
def process_claim_yield (yield_data : YieldAccount) (user_key : Nat)
    (user_signed whitelisted : Bool) (amount : Nat) (now : Int) (transfer_ok : Bool) :
    ClaimOutcome :=
  if ¬ user_signed then ⟨yield_data, none, some .Unauthorized⟩
  else if ¬ whitelisted then ⟨yield_data, none, some .Unauthorized⟩
  else if yield_data.owner ≠ user_key then ⟨yield_data, none, some .Unauthorized⟩
  else if yield_data.get_unclaimed_yield < amount then
    ⟨yield_data, none, some .NoYieldToClaim⟩
  else if yield_data.auto_reinvest ∧ amount < 1000000 then
    match yield_data.record_yield_claimed amount now with
    | .error e => ⟨yield_data, none, some e⟩
    | .ok y1 => ⟨y1.record_yield_earned amount, none, none⟩
  else
    if ¬ transfer_ok then ⟨yield_data, none, some .TokenTransferFailed⟩
    else
      match yield_data.record_yield_claimed amount now with
      | .error e => ⟨yield_data, none, some e⟩
      | .ok y1 => ⟨y1, some amount, none⟩

/-! ## Concrete sample accounts used by witnesses and counterexamples -/

/-- A three-installment loan of 100 units per installment, Silver card with a
Bronze NFT attached (late penalty 700 bps), first payment due at time 0. -/
def sampleLoan : BNPLContractAccount :=
  { borrower := 1, merchant := 2, amount := 300, token_mint := 3, installments := 3,
    paid_installments := 0, next_payment_due := 0, payment_interval_days := 30,
    amount_per_installment := 100, status := 0, created_at := 0, last_payment_at := 0,
    fee_percentage := 400, apr_percentage := 550, card_type := 1, nft_type := 1, bump := 0 }

/-- A staking position of owner 1, Locked, holding `amt` units. -/
def sampleStaking (amt : Nat) : StakingAccount :=
  { owner := 1, usdc_mint := 3, amount_staked := amt, status := 1, lock_period_end := 0,
    created_at := 0, last_update := 0, bump := 0 }

/-- A fresh score account at the initial score of 500. -/
def sampleScore : ScoreAccount :=
  { owner := 1, score := 500, on_time_payments := 0, late_payments := 0, defaults := 0,
    total_loans := 0, last_updated := 0, bump := 0 }

/-- A Locked staking position already holding the full `u64` range. -/
def maxStaking : StakingAccount :=
  { owner := 1, usdc_mint := 2, amount_staked := U64_MAX, status := 1, lock_period_end := 100,
    created_at := 0, last_update := 0, bump := 0 }

/-- A Locked staking position of 50 USDC expiring at time 700000. -/
def lockedStaking : StakingAccount :=
  { owner := 1, usdc_mint := 2, amount_staked := 50000000, status := 1,
    lock_period_end := 700000, created_at := 0, last_update := 0, bump := 0 }

/-- An active spend authorization: 1000 authorized, 100 used, expires at 1000000. -/
def sampleAuth : AuthorizationAccount :=
  { user := 1, flexfi_authority := 9, authorized_amount := 1000, used_amount := 100,
    is_active := true, created_at := 0, expires_at := 1000000, bump := 0 }

/-- An auto-reinvesting yield position with 500000 earned and 100000 claimed. -/
def sampleYield : YieldAccount :=
  { owner := 1, strategy := 0, custom_strategy_address := 0, auto_reinvest := true,
    total_yield_earned := 500000, total_yield_claimed := 100000, last_yield_claimed := 0,
    created_at := 0, bump := 0 }

/-- An auto-reinvesting yield position whose earned total already sits at
`u64::MAX`. -/
def maxYield : YieldAccount :=
  { owner := 1, strategy := 0, custom_strategy_address := 0, auto_reinvest := true,
    total_yield_earned := U64_MAX, total_yield_claimed := 0, last_yield_claimed := 0,
    created_at := 0, bump := 0 }

/-! ## Theorems -/

/-- C3: for every loan-creation request whose checked arithmetic does not
overflow, `process_create_bnpl_contract` computes
`fee = amount * fee_rate_bps / 10000`,
`apr_component = ((amount * apr_rate_bps / 10000) * installment_count) / 12`,
`total = amount + fee + apr_component` and
`per_installment = total / installment_count` (integer division), and the
absorbed remainder `total - per_installment * installment_count` is at most
`installment_count - 1`. -/
theorem create_loan_amount_formulas (amount fee_percentage apr_percentage installments : Nat)
    (hn : 0 < installments)
    (hmf : amount * fee_percentage ≤ U64_MAX)
    (hma : amount * apr_percentage ≤ U64_MAX)
    (hmi : amount * apr_percentage / 10000 * installments ≤ U64_MAX)
    (hta : amount + amount * fee_percentage / 10000 +
      amount * apr_percentage / 10000 * installments / 12 ≤ U64_MAX) :
    bnpl_create_amounts amount fee_percentage apr_percentage installments =
      some (amount * fee_percentage / 10000,
        amount * apr_percentage / 10000 * installments / 12,
        amount + amount * fee_percentage / 10000 +
          amount * apr_percentage / 10000 * installments / 12,
        (amount + amount * fee_percentage / 10000 +
          amount * apr_percentage / 10000 * installments / 12) / installments) ∧
    (amount + amount * fee_percentage / 10000 +
        amount * apr_percentage / 10000 * installments / 12) -
      (amount + amount * fee_percentage / 10000 +
        amount * apr_percentage / 10000 * installments / 12) / installments * installments ≤
      installments - 1 := by
  have e1 : bnpl_fee_amount amount fee_percentage = some (amount * fee_percentage / 10000) := by
    simp [bnpl_fee_amount, checkedMul, checkedDiv, hmf]
  have e2 : bnpl_apr_amount amount apr_percentage installments =
      some (amount * apr_percentage / 10000 * installments / 12) := by
    simp [bnpl_apr_amount, checkedMul, checkedDiv, hma, hmi]
  have h1 : amount + amount * fee_percentage / 10000 ≤ U64_MAX := by
    have := Nat.le_add_right (amount + amount * fee_percentage / 10000)
      (amount * apr_percentage / 10000 * installments / 12)
    omega
  have e3 : bnpl_total_amount amount (amount * fee_percentage / 10000)
      (amount * apr_percentage / 10000 * installments / 12) =
      some (amount + amount * fee_percentage / 10000 +
        amount * apr_percentage / 10000 * installments / 12) := by
    simp [bnpl_total_amount, checkedAdd, h1, hta]
  have e4 : bnpl_amount_per_installment
      (amount + amount * fee_percentage / 10000 +
        amount * apr_percentage / 10000 * installments / 12) installments =
      some ((amount + amount * fee_percentage / 10000 +
        amount * apr_percentage / 10000 * installments / 12) / installments) := by
    simp [bnpl_amount_per_installment, checkedDiv, hn.ne']
  refine ⟨by simp [bnpl_create_amounts, e1, e2, e3, e4], ?_⟩
  have hd := Nat.div_add_mod' (amount + amount * fee_percentage / 10000 +
    amount * apr_percentage / 10000 * installments / 12) installments
  have hm := Nat.mod_lt (amount + amount * fee_percentage / 10000 +
    amount * apr_percentage / 10000 * installments / 12) hn
  omega

/-- Witness for C3 at the spec's Scenario B: amount 1200, 3 installments,
fee 400 bps, APR 500 bps give fee 48, APR component 15, total 1263 and
per-installment 421. -/
theorem create_loan_amount_formulas_witness :
    bnpl_create_amounts 1200 400 500 3 = some (48, 15, 1263, 421) ∧ 1263 - 421 * 3 ≤ 2 := by
  have h := create_loan_amount_formulas 1200 400 500 3 (by decide) (by decide) (by decide)
    (by decide) (by decide)
  exact ⟨h.1.trans (by decide), by decide⟩

/-- C4: `update_score` with a positive delta sets
`score = min (score + delta) 1000` and increments `on_time_payments`; a
delta strictly below −30 saturating-subtracts `|delta|` and increments
`defaults`; a delta in `[-30, 0)` (so −30 itself included) saturating-
subtracts `|delta|` and increments `late_payments` without touching
`defaults`; and the resulting score always lies within `[0, 1000]`. -/
theorem update_score_classification (s : ScoreAccount) (change now : Int)
    (hs : s.score ≤ 1000) (hon : s.on_time_payments < U32_MAX)
    (hlate : s.late_payments < U32_MAX) (hdef : s.defaults < U16_MAX)
    (hhi : change ≤ 32767) :
    (0 < change →
      (s.update_score change now).score = min (s.score + change.toNat) 1000 ∧
      (s.update_score change now).on_time_payments = s.on_time_payments + 1) ∧
    (change < -30 →
      (s.update_score change now).score = s.score - change.natAbs ∧
      (s.update_score change now).defaults = s.defaults + 1 ∧
      (s.update_score change now).late_payments = s.late_payments) ∧
    (-30 ≤ change → change < 0 →
      (s.update_score change now).score = s.score - change.natAbs ∧
      (s.update_score change now).late_payments = s.late_payments + 1 ∧
      (s.update_score change now).defaults = s.defaults) ∧
    (s.update_score change now).score ≤ 1000 := by
  unfold ScoreAccount.update_score satAddU16 satAddU32 satSub
  unfold U16_MAX U32_MAX at *
  split_ifs with h1 h2 h3 <;>
    refine ⟨fun hc => ⟨by simp <;> omega, by simp <;> omega⟩,
      fun hc => ⟨by simp <;> omega, by simp <;> omega, by simp <;> omega⟩,
      fun hc1 hc2 => ⟨by simp <;> omega, by simp <;> omega, by simp <;> omega⟩,
      by simp <;> omega⟩

/-- Witness for C4 at delta = −30 exactly: from score 500 the update lands at
470, `late_payments` is incremented and `defaults` is untouched. -/
theorem update_score_classification_witness :
    (sampleScore.update_score (-30) 7).score = 500 - (30 : Int).natAbs ∧
    (sampleScore.update_score (-30) 7).late_payments = 0 + 1 ∧
    (sampleScore.update_score (-30) 7).defaults = 0 := by
  have h := update_score_classification sampleScore (-30) 7 (by decide) (by decide)
    (by decide) (by decide) (by decide)
  exact (h.2.2.1 (by decide) (by decide))

/-- C6: starting from `used_amount ≤ authorized_amount`, every `spend` call
keeps `used_amount ≤ authorized_amount`; a rejected spend leaves the
authorization account unchanged, and a successful spend of `amount`
increases `used_amount` by exactly `amount`. -/
theorem spend_credit_invariant (authorization : AuthorizationAccount) (staking : StakingAccount)
    (authority_key_ok : Bool) (now : Int) (amount : Nat) (transfer_ok : Bool)
    (hinv : authorization.used_amount ≤ authorization.authorized_amount)
    (hb : authorization.authorized_amount ≤ U64_MAX) :
    ((process_flexfi_spend authorization staking authority_key_ok now amount
        transfer_ok).authorization.used_amount ≤
      (process_flexfi_spend authorization staking authority_key_ok now amount
        transfer_ok).authorization.authorized_amount) ∧
    ((process_flexfi_spend authorization staking authority_key_ok now amount
        transfer_ok).err ≠ none →
      (process_flexfi_spend authorization staking authority_key_ok now amount
        transfer_ok).authorization = authorization) ∧
    ((process_flexfi_spend authorization staking authority_key_ok now amount
        transfer_ok).err = none →
      (process_flexfi_spend authorization staking authority_key_ok now amount
        transfer_ok).authorization.used_amount = authorization.used_amount + amount) := by
  unfold process_flexfi_spend
  split_ifs with h1 h2 h3 h4 <;>
    refine ⟨?_, fun hne => ?_, fun he => ?_⟩ <;>
    simp_all [satAddU64, AuthorizationAccount.remaining_credit, satSub, U64_MAX] <;>
    omega

/-- Witness for C6: a successful spend of 200 against an authorization of
1000 with 100 already used keeps the invariant and adds exactly 200. -/
theorem spend_credit_invariant_witness :
    ((process_flexfi_spend sampleAuth (sampleStaking 0) true 5 200 true).authorization.used_amount ≤
      (process_flexfi_spend sampleAuth (sampleStaking 0) true 5 200
        true).authorization.authorized_amount) ∧
    ((process_flexfi_spend sampleAuth (sampleStaking 0) true 5 200 true).err ≠ none →
      (process_flexfi_spend sampleAuth (sampleStaking 0) true 5 200 true).authorization =
        sampleAuth) ∧
    ((process_flexfi_spend sampleAuth (sampleStaking 0) true 5 200 true).err = none →
      (process_flexfi_spend sampleAuth (sampleStaking 0) true 5 200 true).authorization.used_amount =
        sampleAuth.used_amount + 200) :=
  spend_credit_invariant sampleAuth (sampleStaking 0) true 5 200 true (by decide) (by decide)

/-- C8: a successful `process_flexfi_spend` never modifies the staking
ledger record — the committed `StakingAccount` equals the input one — while
`amount` tokens leave the staking custody vault and only the authorization's
`used_amount` changes. -/
theorem spend_leaves_staking_record (authorization : AuthorizationAccount)
    (staking : StakingAccount) (authority_key_ok : Bool) (now : Int) (amount : Nat)
    (transfer_ok : Bool)
    (hok : (process_flexfi_spend authorization staking authority_key_ok now amount
      transfer_ok).err = none) :
    (process_flexfi_spend authorization staking authority_key_ok now amount
      transfer_ok).staking = staking ∧
    (process_flexfi_spend authorization staking authority_key_ok now amount
      transfer_ok).transferred = some amount ∧
    (process_flexfi_spend authorization staking authority_key_ok now amount
      transfer_ok).authorization =
      { authorization with
          used_amount := satAddU64 authorization.used_amount amount } := by
  unfold process_flexfi_spend at hok ⊢
  split_ifs at hok ⊢
  exact ⟨rfl, rfl, rfl⟩

/-- Witness for C8: a concrete successful spend leaves the sample staking
account untouched. -/
theorem spend_leaves_staking_record_witness :
    (process_flexfi_spend sampleAuth (sampleStaking 77) true 5 200 true).staking =
      sampleStaking 77 ∧
    (process_flexfi_spend sampleAuth (sampleStaking 77) true 5 200 true).transferred = some 200 ∧
    (process_flexfi_spend sampleAuth (sampleStaking 77) true 5 200 true).authorization =
      { sampleAuth with used_amount := satAddU64 sampleAuth.used_amount 200 } :=
  spend_leaves_staking_record sampleAuth (sampleStaking 77) true 5 200 true (by decide)

/-- C9: for a Locked staking position with sufficient balance, `withdraw`
invoked exactly at the lock boundary (`now = lock_period_end`) is not
rejected: the operation succeeds and pays out `amount`. -/
theorem withdraw_at_lock_expiry (staking : StakingAccount) (user_key amount : Nat) (now : Int)
    (hstat : staking.status = StakingStatus.Locked.to_u8)
    (howner : staking.owner = user_key)
    (hnow : now = staking.lock_period_end)
    (hamt : amount ≤ staking.amount_staked) :
    (process_withdraw_staking staking user_key true true amount now true).err = none ∧
    (process_withdraw_staking staking user_key true true amount now true).staking.amount_staked =
      staking.amount_staked - amount ∧
    (process_withdraw_staking staking user_key true true amount now true).transferred =
      some amount := by
  have hgs : staking.get_status = some StakingStatus.Locked := by
    simp [StakingAccount.get_status, hstat, StakingStatus.to_u8, StakingStatus.from_u8]
  simp only [process_withdraw_staking, hgs, howner, hnow]
  split_ifs with h1 h2 h3 h4 h5 h6 <;>
    first
      | (exact ⟨rfl, by simp [StakingAccount.set_status, satSub], rfl⟩)
      | (exfalso; omega)
      | (exfalso; simp_all)

/-- Witness for C9: withdrawing 20 USDC from the 50-USDC locked sample
position exactly at its expiry time succeeds. -/
theorem withdraw_at_lock_expiry_witness :
    (process_withdraw_staking lockedStaking 1 true true 20000000 700000 true).err = none ∧
    (process_withdraw_staking lockedStaking 1 true true 20000000 700000 true).staking.amount_staked =
      lockedStaking.amount_staked - 20000000 ∧
    (process_withdraw_staking lockedStaking 1 true true 20000000 700000 true).transferred =
      some 20000000 :=
  withdraw_at_lock_expiry lockedStaking 1 20000000 700000 (by decide) (by decide) (by decide)
    (by decide)

/-- Counterexample to C5: depositing 10 USDC into a Locked position already
holding `u64::MAX` overflows the addition, yet `process_deposit_staking`
returns success (`err = none`) with the balance silently clamped to
`u64::MAX` — it does not return an overflow error. -/
theorem deposit_overflow_not_an_error :
    U64_MAX < maxStaking.amount_staked + 10000000 ∧
    (process_deposit_staking (some maxStaking) 1 2 0 true true 10000000 7 0 true).err = none ∧
    (process_deposit_staking (some maxStaking) 1 2 0 true true 10000000 7 0 true).staking =
      some { maxStaking with
               amount_staked := U64_MAX
               lock_period_end := 604800
               last_update := 0 } := by
  decide

/-- C5 amended: for an existing Active or Locked staking position and valid
deposit parameters, `process_deposit_staking` always succeeds and stores
`min (amount_staked + amount) u64::MAX`; in particular, when the addition
would overflow a `u64` the balance is silently saturated to `u64::MAX`
instead of an overflow error being returned. -/
theorem deposit_saturating_add (data0 : StakingAccount)
    (user_key usdc_mint staking_bump amount lock_days : Nat) (now : Int)
    (hst : data0.get_status = some StakingStatus.Active ∨
      data0.get_status = some StakingStatus.Locked)
    (hamt : MIN_STAKING_AMOUNT ≤ amount)
    (hlo : MIN_STAKING_LOCK_DAYS ≤ lock_days) (hhi : lock_days ≤ MAX_STAKING_LOCK_DAYS) :
    (process_deposit_staking (some data0) user_key usdc_mint staking_bump true true amount
      lock_days now true).err = none ∧
    ∃ d3, (process_deposit_staking (some data0) user_key usdc_mint staking_bump true true amount
        lock_days now true).staking = some d3 ∧
      d3.amount_staked = min (data0.amount_staked + amount) U64_MAX ∧
      (U64_MAX < data0.amount_staked + amount → d3.amount_staked = U64_MAX) := by
  unfold process_deposit_staking
  unfold MIN_STAKING_AMOUNT MIN_STAKING_LOCK_DAYS MAX_STAKING_LOCK_DAYS at *
  rcases hst with h | h <;>
    simp only [h] <;>
    split_ifs <;>
    first
      | (refine ⟨rfl, _, rfl, ?_, ?_⟩ <;> simp [satAddU64, U64_MAX] <;> omega)
      | (exfalso; omega)
      | (exfalso; simp_all; done)

/-- Witness for the amended C5: the concrete overflowing deposit from the
counterexample satisfies the amended statement with the balance saturated. -/
theorem deposit_saturating_add_witness :
    (process_deposit_staking (some maxStaking) 1 2 0 true true 10000000 7 0 true).err = none ∧
    ∃ d3, (process_deposit_staking (some maxStaking) 1 2 0 true true 10000000 7 0
        true).staking = some d3 ∧
      d3.amount_staked = min (maxStaking.amount_staked + 10000000) U64_MAX ∧
      (U64_MAX < maxStaking.amount_staked + 10000000 → d3.amount_staked = U64_MAX) :=
  deposit_saturating_add maxStaking 1 2 0 10000000 7 0 (by decide) (by decide) (by decide)
    (by decide)

/-- Counterexample to C10: with `auto_reinvest = true`, `total_earned` at
`u64::MAX` and `total_claimed = 0`, claiming 1 unit (below the reinvestment
threshold and within the unclaimed balance) succeeds, but the saturating
re-add leaves `total_earned` unchanged instead of increasing it by the
amount, so the unclaimed balance shrinks. -/
theorem claim_yield_reinvest_saturation :
    (process_claim_yield maxYield 1 true true 1 5 true).err = none ∧
    (process_claim_yield maxYield 1 true true 1 5 true).yield_data.total_yield_earned ≠
      maxYield.total_yield_earned + 1 ∧
    (process_claim_yield maxYield 1 true true 1 5 true).yield_data.get_unclaimed_yield ≠
      maxYield.get_unclaimed_yield := by
  decide

/-- C10 amended: for an auto-reinvesting position, claiming an amount below
the 1,000,000-unit threshold and within the unclaimed balance — provided
re-adding it to `total_earned` does not overflow a `u64` — increases both
`total_earned` and `total_claimed` by exactly `amount`, performs no token
transfer, and leaves the unclaimed balance unchanged. -/
theorem claim_yield_auto_reinvest (y : YieldAccount) (user_key amount : Nat) (now : Int)
    (transfer_ok : Bool)
    (howner : y.owner = user_key) (hauto : y.auto_reinvest = true)
    (hthr : amount < 1000000) (hav : amount ≤ y.get_unclaimed_yield)
    (hinv : y.total_yield_claimed ≤ y.total_yield_earned)
    (hnosat : y.total_yield_earned + amount ≤ U64_MAX) :
    (process_claim_yield y user_key true true amount now transfer_ok).err = none ∧
    (process_claim_yield y user_key true true amount now transfer_ok).transferred = none ∧
    (process_claim_yield y user_key true true amount now
      transfer_ok).yield_data.total_yield_earned = y.total_yield_earned + amount ∧
    (process_claim_yield y user_key true true amount now
      transfer_ok).yield_data.total_yield_claimed = y.total_yield_claimed + amount ∧
    (process_claim_yield y user_key true true amount now
      transfer_ok).yield_data.get_unclaimed_yield = y.get_unclaimed_yield := by
  unfold process_claim_yield YieldAccount.record_yield_claimed YieldAccount.record_yield_earned
  unfold YieldAccount.get_unclaimed_yield satSub U64_MAX at *
  split_ifs <;>
    first
      | (refine ⟨rfl, rfl, ?_, ?_, ?_⟩ <;> simp [satAddU64, U64_MAX] <;> omega)
      | (exfalso; omega)
      | (exfalso; simp_all; done)

/-- Witness for the amended C10: claiming 50000 from the sample
auto-reinvesting position (earned 500000, claimed 100000) re-adds the
amount with no transfer and an unchanged unclaimed balance. -/
theorem claim_yield_auto_reinvest_witness :
    (process_claim_yield sampleYield 1 true true 50000 9 true).err = none ∧
    (process_claim_yield sampleYield 1 true true 50000 9 true).transferred = none ∧
    (process_claim_yield sampleYield 1 true true 50000 9 true).yield_data.total_yield_earned =
      sampleYield.total_yield_earned + 50000 ∧
    (process_claim_yield sampleYield 1 true true 50000 9 true).yield_data.total_yield_claimed =
      sampleYield.total_yield_claimed + 50000 ∧
    (process_claim_yield sampleYield 1 true true 50000 9 true).yield_data.get_unclaimed_yield =
      sampleYield.get_unclaimed_yield :=
  claim_yield_auto_reinvest sampleYield 1 50000 9 true (by decide) (by decide) (by decide)
    (by decide) (by decide) (by decide)

/-- C7 (bug in the source): within the grace period `check_repayment`
intends a −10 score delta (repayment.rs:284-291), but it forwards only the
two-element slice `[score_account, borrower_account]` to
`ScoreContract::update_score`, whose handler consumes three accounts
(score, authority, clock sysvar); the third `next_account_info` fails with
`NotEnoughAccountKeys`, so the instruction errors with no state change at
all — in particular no −10 delta is ever committed.  Evaluated here on a
due loan one day before the grace deadline with a failed debit. -/
theorem check_repayment_within_grace_aborts :
    (process_check_repayment sampleLoan (sampleStaking 1000) sampleScore 1 1 true true
      1209600 false).err = some ProgErr.NotEnoughAccountKeys ∧
    (process_check_repayment sampleLoan (sampleStaking 1000) sampleScore 1 1 true true
      1209600 false).score = sampleScore ∧
    (process_check_repayment sampleLoan (sampleStaking 1000) sampleScore 1 1 true true
      1209600 false).bnpl = sampleLoan ∧
    (process_check_repayment sampleLoan (sampleStaking 1000) sampleScore 1 1 true true
      1209600 false).staking = sampleStaking 1000 := by
  decide

/-- C2 (bug in the source): in the zero-collateral path the source intends
to default the loan with a −50 delta and surface the collateral-exhausted
error (repayment.rs:149-165), but the −50 `ScoreContract::update_score`
call at line 151 forwards only `[score_account, borrower_account]` while
its handler consumes three accounts, so it fails with
`NotEnoughAccountKeys` and the `?` aborts BEFORE `set_status(Defaulted)`
and the serialize: the loan stays Active, the score is unchanged, and the
caller sees `NotEnoughAccountKeys` rather than the collateral-exhausted
error.  Evaluated on a due loan past the grace period with zero staked
collateral and a failed debit. -/
theorem check_repayment_no_collateral_aborts :
    (process_check_repayment sampleLoan (sampleStaking 0) sampleScore 1 1 true true
      2000000 false).err = some ProgErr.NotEnoughAccountKeys ∧
    (process_check_repayment sampleLoan (sampleStaking 0) sampleScore 1 1 true true
      2000000 false).bnpl.status = BNPLStatus.Active.to_u8 ∧
    (process_check_repayment sampleLoan (sampleStaking 0) sampleScore 1 1 true true
      2000000 false).score = sampleScore ∧
    (process_check_repayment sampleLoan (sampleStaking 0) sampleScore 1 1 true true
      2000000 false).staking = sampleStaking 0 := by
  decide

/-- C1 (bug in the source): past the grace period the source computes the
penalty, moves `total_deduction = 107` (100 per installment + 7 penalty)
out of the staking vault via `invoke_signed`, and intends to advance the
loan with a −20 delta (or default with −50), but the nested
`ScoreContract::update_score` call forwards only
`[score_account, borrower_account]` while its handler consumes three
accounts, so it fails with `NotEnoughAccountKeys` and the instruction
aborts before the staking and BNPL serializes at repayment.rs:276-277: no
installment advance, no Defaulted status, no score delta and no reduced
collateral balance is ever committed.  Evaluated on a due loan past the
grace period with 1000 staked and a failed debit. -/
theorem check_repayment_seizure_aborts :
    (process_check_repayment sampleLoan (sampleStaking 1000) sampleScore 1 1 true true
      2000000 false).err = some ProgErr.NotEnoughAccountKeys ∧
    (process_check_repayment sampleLoan (sampleStaking 1000) sampleScore 1 1 true true
      2000000 false).bnpl = sampleLoan ∧
    (process_check_repayment sampleLoan (sampleStaking 1000) sampleScore 1 1 true true
      2000000 false).staking = sampleStaking 1000 ∧
    (process_check_repayment sampleLoan (sampleStaking 1000) sampleScore 1 1 true true
      2000000 false).score = sampleScore := by
  decide

end Flexfi
